import Mathlib

/-!
Shallow embedding of the authorization-gated book CRUD pipeline of
`app/controllers/book_controller.go`.

External collaborators (JWT claims extraction, JSON body decoding, the
validation rule engine, UUID generation, the clock, and gateway faults) are
modelled as explicit inputs to each handler; the persistent store is a list
of books threaded through the mutating handlers.  Instants (`time.Time`,
Unix seconds) are modelled as `Int`, with `0` standing for the Go zero value
`time.Time` zero; UUIDs are modelled as `Nat`.  Each handler returns the
HTTP status together with the JSON envelope it writes, and (for mutators)
the resulting store.

A call `time.Now()` is modelled by sampling a clock stream `clock : Nat → Int`
at the next index: `clock 0` is the sample taken at handler entry
(`now := time.Now().Unix()`), `clock 1` the later sample used for
`CreatedAt` (CreateBook) or `UpdatedAt` (UpdateBook).
-/

/-- Modelled from the spec: the extensible attribute container `models.BookAttrs`
(package `app/models`, not under src/); the Go zero value corresponds to the
empty list. -/
abbrev BookAttrs := List (String × String)

/-- Modelled from the spec and the controller's field accesses: the
`models.Book` struct (package `app/models`, not under src/): system fields
`ID`, `CreatedAt`, `UpdatedAt`, `BookStatus`, `BookAttrs` as used in the
controller, and the caller-supplied `Title` and `Author` of spec section 3. -/
structure Book where
  ID : Nat
  CreatedAt : Int
  UpdatedAt : Int
  Title : String
  Author : String
  BookStatus : Nat
  BookAttrs : BookAttrs
deriving DecidableEq, Repr

/-- Modelled from the spec and the controller's field accesses: the
`utils.TokenMetadata` value returned by `utils.ExtractTokenMetadata`
(package `pkg/utils`, not under src/): an absolute expiry instant and a
string-keyed permission map.  The map is a association list; a missing key
yields the Go zero value `false`. -/
structure TokenMetadata where
  Expires : Int
  Credentials : List (String × Bool)
deriving DecidableEq, Repr

/-- Go map indexing `claims.Credentials[action]` on a `map[string]bool`:
the stored value when the key is present, `false` when it is missing. -/
def lookupCred (creds : List (String × Bool)) (action : String) : Bool :=
  match creds.find? (fun p => p.fst == action) with
  | some p => p.snd
  | none => false

/-- The persistent store behind the gateway: books keyed by `ID`. -/
structure Store where
  books : List Book
deriving DecidableEq, Repr

/-- Gateway lookup `db.GetBook(id)`: the stored book with the given id, or
`none` (surfaced by the gateway as an error, which the controller treats as
not-found). -/
def getBookById (s : Store) (id : Nat) : Option Book :=
  s.books.find? (fun b => b.ID == id)

/-- Gateway insert `db.CreateBook(book)`. -/
def dbCreateBook (s : Store) (b : Book) : Store :=
  Store.mk (s.books ++ [b])

/-- Gateway write `db.UpdateBook(book)`: replaces the record whose id matches
`b.ID` with `b`. -/
def dbUpdateBook (s : Store) (b : Book) : Store :=
  Store.mk (s.books.map (fun x => if x.ID == b.ID then b else x))

/-- Gateway delete `db.DeleteBook(id)`: removes the record with the given id. -/
def dbDeleteBook (s : Store) (id : Nat) : Store :=
  Store.mk (s.books.filter (fun x => x.ID != id))

/-- Modelled from the spec: the gateway collection query `db.GetBooks`
(package `platform/database`, not under src/).  Spec section 4.2 Read
(collection) and section 8 scenario 5: a query fault and an empty store are
both surfaced as the error case; a fault-free query on a nonempty store
returns all books. -/
def dbGetBooks (s : Store) (queryFault : Bool) : Except String (List Book) :=
  if queryFault || s.books.isEmpty then Except.error "no results"
  else Except.ok s.books

/-- The structured field-violation list produced by `utils.ValidatorErrors`. -/
abbrev ValidationErrors := List (String × String)

/-- The `msg` field of a response envelope: JSON `null`, verbatim error text,
or the structured validator output. -/
inductive Msg where
  | null
  | text (s : String)
  | fieldErrors (errs : ValidationErrors)
deriving DecidableEq, Repr

/-- The `book` field of a response envelope: absent from the JSON map,
explicit `null`, or a book value. -/
inductive BookField where
  | absent
  | null
  | val (b : Book)
deriving DecidableEq, Repr

/-- The `books` field of a response envelope: absent, explicit `null`, or a
list of books. -/
inductive BooksField where
  | absent
  | null
  | val (l : List Book)
deriving DecidableEq, Repr

/-- One handler response: the fiber status code and the JSON envelope
(`error`, `msg`, and the optional `book`, `count`, `books` keys). -/
structure Response where
  status : Nat
  error : Bool
  msg : Msg
  book : BookField := BookField.absent
  count : Option Nat := none
  books : BooksField := BooksField.absent
deriving DecidableEq, Repr

def StatusOK : Nat := 200
def StatusCreated : Nat := 201
def StatusAccepted : Nat := 202
def StatusForbidden : Nat := 403
def StatusNotFound : Nat := 404
def StatusInternalServerError : Nat := 500

/-- The fixed denial message of the 403 branches. -/
def deniedMsg : String :=
  "permission denied, check credentials or expiration time of your token"

/-- The envelope written by every `err.Error()`-carrying 500 branch. -/
def err500 (e : String) : Response :=
  { status := StatusInternalServerError, error := true, msg := Msg.text e }

/-- Handler `GetBooks`: gets all existing books.  `conn` is the
`OpenDBConnection` outcome (an error string, or `none` on success),
`queryRes` the `db.GetBooks()` outcome. -/
def GetBooks (conn : Option String) (queryRes : Except String (List Book)) :
    Response :=
  match conn with
  | some e => err500 e
  | none =>
    match queryRes with
    | Except.error _ =>
      { status := StatusNotFound, error := true,
        msg := Msg.text "books were not found",
        count := some 0, books := BooksField.null }
    | Except.ok books =>
      { status := StatusOK, error := false, msg := Msg.null,
        count := some books.length, books := BooksField.val books }

/-- Handler `GetBook`: gets a book by id.  `idParse` is the `uuid.Parse`
outcome on the path parameter. -/
def GetBook (idParse : Except String Nat) (conn : Option String) (s : Store) :
    Response :=
  match idParse with
  | Except.error e => err500 e
  | Except.ok id =>
    match conn with
    | some e => err500 e
    | none =>
      match getBookById s id with
      | none =>
        { status := StatusNotFound, error := true,
          msg := Msg.text "book with the given ID is not found",
          book := BookField.null }
      | some book =>
        { status := StatusOK, error := false, msg := Msg.null,
          book := BookField.val book }

/-- Handler `CreateBook`.  `extract` is the `utils.ExtractTokenMetadata`
outcome, `body` the `c.BodyParser` outcome, `validate` the rule engine
(`none` = valid), `newID` the value of `uuid.New()`, `createFault` the
`db.CreateBook` outcome. -/
def CreateBook (clock : Nat → Int) (extract : Except String TokenMetadata)
    (body : Except String Book) (validate : Book → Option ValidationErrors)
    (conn : Option String) (newID : Nat) (createFault : Option String)
    (s : Store) : Response × Store :=
  let now := clock 0
  match extract with
  | Except.error e => (err500 e, s)
  | Except.ok claims =>
    let expires := claims.Expires
    let credential := lookupCred claims.Credentials "book:create"
    match body with
    | Except.error e => (err500 e, s)
    | Except.ok book =>
      if credential && decide (now < expires) then
        match validate book with
        | some errs =>
          ({ status := StatusInternalServerError, error := true,
             msg := Msg.fieldErrors errs }, s)
        | none =>
          match conn with
          | some e => (err500 e, s)
          | none =>
            let book : Book :=
              { book with
                ID := newID
                CreatedAt := clock 1
                UpdatedAt := 0
                BookStatus := 1
                BookAttrs := [] }
            match createFault with
            | some e => (err500 e, s)
            | none =>
              ({ status := StatusCreated, error := false, msg := Msg.null,
                 book := BookField.val book }, dbCreateBook s book)
      else
        ({ status := StatusForbidden, error := true, msg := Msg.text deniedMsg,
           book := BookField.null }, s)

/-- Handler `UpdateBook`.  The body-parsed `book` carries the target id;
`updateFault` is the `db.UpdateBook` outcome. -/
def UpdateBook (clock : Nat → Int) (extract : Except String TokenMetadata)
    (body : Except String Book) (validate : Book → Option ValidationErrors)
    (conn : Option String) (updateFault : Option String) (s : Store) :
    Response × Store :=
  let now := clock 0
  match extract with
  | Except.error e => (err500 e, s)
  | Except.ok claims =>
    let expires := claims.Expires
    let credential := lookupCred claims.Credentials "book:update"
    match body with
    | Except.error e => (err500 e, s)
    | Except.ok book =>
      if credential && decide (now < expires) then
        match validate book with
        | some errs =>
          ({ status := StatusInternalServerError, error := true,
             msg := Msg.fieldErrors errs }, s)
        | none =>
          match conn with
          | some e => (err500 e, s)
          | none =>
            match getBookById s book.ID with
            | none =>
              ({ status := StatusNotFound, error := true,
                 msg := Msg.text "book not found" }, s)
            | some _ =>
              let book : Book := { book with UpdatedAt := clock 1 }
              match updateFault with
              | some e => (err500 e, s)
              | none =>
                ({ status := StatusAccepted, error := false, msg := Msg.null,
                   book := BookField.val book }, dbUpdateBook s book)
      else
        ({ status := StatusForbidden, error := true, msg := Msg.text deniedMsg,
           book := BookField.null }, s)

/-- Handler `DeleteBook`.  The body-parsed `book` carries the target id;
`deleteFault` is the `db.DeleteBook` outcome. -/
def DeleteBook (clock : Nat → Int) (extract : Except String TokenMetadata)
    (body : Except String Book) (conn : Option String)
    (deleteFault : Option String) (s : Store) : Response × Store :=
  let now := clock 0
  match extract with
  | Except.error e => (err500 e, s)
  | Except.ok claims =>
    let expires := claims.Expires
    let credential := lookupCred claims.Credentials "book:delete"
    match body with
    | Except.error e => (err500 e, s)
    | Except.ok book =>
      if credential && decide (now < expires) then
        match conn with
        | some e => (err500 e, s)
        | none =>
          match getBookById s book.ID with
          | none =>
            ({ status := StatusNotFound, error := true,
               msg := Msg.text "book not found" }, s)
          | some _ =>
            match deleteFault with
            | some e => (err500 e, s)
            | none =>
              ({ status := StatusOK, error := false, msg := Msg.null },
               dbDeleteBook s book.ID)
      else
        ({ status := StatusForbidden, error := true,
           msg := Msg.text deniedMsg }, s)

/-! ### Helper lemmas shared by the claim theorems -/

theorem createBook_denied_eq (clock : Nat → Int) (claims : TokenMetadata)
    (b : Book) (validate : Book → Option ValidationErrors)
    (conn : Option String) (newID : Nat) (fault : Option String) (s : Store)
    (h : (lookupCred claims.Credentials "book:create"
            && decide (clock 0 < claims.Expires)) = false) :
    CreateBook clock (Except.ok claims) (Except.ok b) validate conn newID fault s
      = ({ status := StatusForbidden, error := true, msg := Msg.text deniedMsg,
           book := BookField.null }, s) := by
  simp [CreateBook, h]

theorem updateBook_denied_eq (clock : Nat → Int) (claims : TokenMetadata)
    (b : Book) (validate : Book → Option ValidationErrors)
    (conn : Option String) (fault : Option String) (s : Store)
    (h : (lookupCred claims.Credentials "book:update"
            && decide (clock 0 < claims.Expires)) = false) :
    UpdateBook clock (Except.ok claims) (Except.ok b) validate conn fault s
      = ({ status := StatusForbidden, error := true, msg := Msg.text deniedMsg,
           book := BookField.null }, s) := by
  simp [UpdateBook, h]

theorem deleteBook_denied_eq (clock : Nat → Int) (claims : TokenMetadata)
    (b : Book) (conn : Option String) (fault : Option String) (s : Store)
    (h : (lookupCred claims.Credentials "book:delete"
            && decide (clock 0 < claims.Expires)) = false) :
    DeleteBook clock (Except.ok claims) (Except.ok b) conn fault s
      = ({ status := StatusForbidden, error := true,
           msg := Msg.text deniedMsg }, s) := by
  simp [DeleteBook, h]

theorem createBook_forbidden_iff (clock : Nat → Int) (claims : TokenMetadata)
    (b : Book) (validate : Book → Option ValidationErrors)
    (conn : Option String) (newID : Nat) (fault : Option String) (s : Store) :
    ((CreateBook clock (Except.ok claims) (Except.ok b) validate conn newID
        fault s).fst.status = StatusForbidden)
      ↔ ¬(lookupCred claims.Credentials "book:create" = true
            ∧ clock 0 < claims.Expires) := by
  cases hcred : lookupCred claims.Credentials "book:create" with
  | false =>
    rw [createBook_denied_eq clock claims b validate conn newID fault s
      (by simp [hcred])]
    simp [hcred]
  | true =>
    by_cases hexp : clock 0 < claims.Expires
    · simp only [CreateBook, hcred, hexp, decide_True, Bool.and_self, if_true]
      cases hv : validate b with
      | some errs => simp [StatusForbidden, StatusInternalServerError, hexp]
      | none =>
        cases conn with
        | some e => simp [err500, StatusForbidden, StatusInternalServerError, hexp]
        | none =>
          cases fault with
          | some e => simp [err500, StatusForbidden, StatusInternalServerError, hexp]
          | none => simp [StatusForbidden, StatusCreated, hexp]
    · rw [createBook_denied_eq clock claims b validate conn newID fault s
        (by simp [hexp])]
      simp [hexp]

theorem updateBook_forbidden_iff (clock : Nat → Int) (claims : TokenMetadata)
    (b : Book) (validate : Book → Option ValidationErrors)
    (conn : Option String) (fault : Option String) (s : Store) :
    ((UpdateBook clock (Except.ok claims) (Except.ok b) validate conn fault
        s).fst.status = StatusForbidden)
      ↔ ¬(lookupCred claims.Credentials "book:update" = true
            ∧ clock 0 < claims.Expires) := by
  cases hcred : lookupCred claims.Credentials "book:update" with
  | false =>
    rw [updateBook_denied_eq clock claims b validate conn fault s
      (by simp [hcred])]
    simp [hcred]
  | true =>
    by_cases hexp : clock 0 < claims.Expires
    · simp only [UpdateBook, hcred, hexp, decide_True, Bool.and_self, if_true]
      cases hv : validate b with
      | some errs => simp [StatusForbidden, StatusInternalServerError, hexp]
      | none =>
        cases conn with
        | some e => simp [err500, StatusForbidden, StatusInternalServerError, hexp]
        | none =>
          cases hb : getBookById s b.ID with
          | none => simp [StatusForbidden, StatusNotFound, hexp]
          | some old =>
            cases fault with
            | some e =>
              simp [err500, StatusForbidden, StatusInternalServerError, hexp]
            | none => simp [StatusForbidden, StatusAccepted, hexp]
    · rw [updateBook_denied_eq clock claims b validate conn fault s
        (by simp [hexp])]
      simp [hexp]

theorem deleteBook_forbidden_iff (clock : Nat → Int) (claims : TokenMetadata)
    (b : Book) (conn : Option String) (fault : Option String) (s : Store) :
    ((DeleteBook clock (Except.ok claims) (Except.ok b) conn fault
        s).fst.status = StatusForbidden)
      ↔ ¬(lookupCred claims.Credentials "book:delete" = true
            ∧ clock 0 < claims.Expires) := by
  cases hcred : lookupCred claims.Credentials "book:delete" with
  | false =>
    rw [deleteBook_denied_eq clock claims b conn fault s (by simp [hcred])]
    simp [hcred]
  | true =>
    by_cases hexp : clock 0 < claims.Expires
    · simp only [DeleteBook, hcred, hexp, decide_True, Bool.and_self, if_true]
      cases conn with
      | some e => simp [err500, StatusForbidden, StatusInternalServerError, hexp]
      | none =>
        cases hb : getBookById s b.ID with
        | none => simp [StatusForbidden, StatusNotFound, hexp]
        | some old =>
          cases fault with
          | some e => simp [err500, StatusForbidden, StatusInternalServerError, hexp]
          | none => simp [StatusForbidden, StatusOK, hexp]
    · rw [deleteBook_denied_eq clock claims b conn fault s (by simp [hexp])]
      simp [hexp]

theorem getBookById_dbDeleteBook (s : Store) (id : Nat) :
    getBookById (dbDeleteBook s id) id = none := by
  rw [getBookById, List.find?_eq_none]
  intro x hx
  rw [dbDeleteBook] at hx
  simp only [List.mem_filter, bne_iff_ne, ne_eq] at hx
  simp [hx.2]

theorem find_replace_list (l : List Book) (b : Book)
    (h : (l.find? (fun x => x.ID == b.ID)).isSome = true) :
    (l.map (fun x => if x.ID == b.ID then b else x)).find?
        (fun x => x.ID == b.ID) = some b := by
  induction l with
  | nil => simp at h
  | cons x xs ih =>
    simp only [List.map_cons, List.find?_cons]
    rw [List.find?_cons] at h
    cases hx : x.ID == b.ID with
    | true =>
      rw [if_pos rfl]
      simp
    | false =>
      rw [if_neg (by simp [hx])]
      simp only [hx] at h ⊢
      exact ih h

theorem getBookById_dbUpdateBook (s : Store) (b : Book)
    (h : (getBookById s b.ID).isSome = true) :
    getBookById (dbUpdateBook s b) b.ID = some b := by
  rw [getBookById, dbUpdateBook]
  rw [getBookById] at h
  exact find_replace_list s.books b h

theorem replace_list_ids (l : List Book) (b : Book) :
    (l.map (fun x => if x.ID == b.ID then b else x)).map Book.ID
      = l.map Book.ID := by
  induction l with
  | nil => rfl
  | cons x xs ih =>
    simp only [List.map_cons, ih, List.cons.injEq, and_true]
    cases hx : x.ID == b.ID with
    | true =>
      rw [if_pos rfl]
      exact (eq_of_beq hx).symm
    | false => rw [if_neg (by simp [hx])]

theorem dbUpdateBook_ids (s : Store) (b : Book) :
    (dbUpdateBook s b).books.map Book.ID = s.books.map Book.ID := by
  rw [dbUpdateBook]
  exact replace_list_ids s.books b

theorem createBook_ok_eq (clock : Nat → Int) (claims : TokenMetadata)
    (b : Book) (validate : Book → Option ValidationErrors) (newID : Nat)
    (s : Store)
    (hcred : lookupCred claims.Credentials "book:create" = true)
    (hexp : clock 0 < claims.Expires)
    (hval : validate b = none) :
    CreateBook clock (Except.ok claims) (Except.ok b) validate none newID
        none s
      = ({ status := StatusCreated, error := false, msg := Msg.null,
           book := BookField.val
             (Book.mk newID (clock 1) 0 b.Title b.Author 1 []) },
         dbCreateBook s (Book.mk newID (clock 1) 0 b.Title b.Author 1 [])) := by
  simp [CreateBook, hcred, hexp, hval]

theorem updateBook_ok_eq (clock : Nat → Int) (claims : TokenMetadata)
    (b : Book) (validate : Book → Option ValidationErrors) (s : Store)
    (hcred : lookupCred claims.Credentials "book:update" = true)
    (hexp : clock 0 < claims.Expires)
    (hval : validate b = none)
    (hex : (getBookById s b.ID).isSome = true) :
    UpdateBook clock (Except.ok claims) (Except.ok b) validate none none s
      = ({ status := StatusAccepted, error := false, msg := Msg.null,
           book := BookField.val { b with UpdatedAt := clock 1 } },
         dbUpdateBook s { b with UpdatedAt := clock 1 }) := by
  rw [Option.isSome_iff_exists] at hex
  obtain ⟨old, hold⟩ := hex
  simp [UpdateBook, hcred, hexp, hval, hold]

theorem updateBook_notfound_eq (clock : Nat → Int) (claims : TokenMetadata)
    (b : Book) (validate : Book → Option ValidationErrors)
    (fault : Option String) (s : Store)
    (hcred : lookupCred claims.Credentials "book:update" = true)
    (hexp : clock 0 < claims.Expires)
    (hval : validate b = none)
    (hex : getBookById s b.ID = none) :
    UpdateBook clock (Except.ok claims) (Except.ok b) validate none fault s
      = ({ status := StatusNotFound, error := true,
           msg := Msg.text "book not found" }, s) := by
  simp [UpdateBook, hcred, hexp, hval, hex]

theorem deleteBook_ok_eq (clock : Nat → Int) (claims : TokenMetadata)
    (b : Book) (s : Store)
    (hcred : lookupCred claims.Credentials "book:delete" = true)
    (hexp : clock 0 < claims.Expires)
    (hex : (getBookById s b.ID).isSome = true) :
    DeleteBook clock (Except.ok claims) (Except.ok b) none none s
      = ({ status := StatusOK, error := false, msg := Msg.null },
         dbDeleteBook s b.ID) := by
  rw [Option.isSome_iff_exists] at hex
  obtain ⟨old, hold⟩ := hex
  simp [DeleteBook, hcred, hexp, hold]

theorem deleteBook_notfound_eq (clock : Nat → Int) (claims : TokenMetadata)
    (b : Book) (fault : Option String) (s : Store)
    (hcred : lookupCred claims.Credentials "book:delete" = true)
    (hexp : clock 0 < claims.Expires)
    (hex : getBookById s b.ID = none) :
    DeleteBook clock (Except.ok claims) (Except.ok b) none fault s
      = ({ status := StatusNotFound, error := true,
           msg := Msg.text "book not found" }, s) := by
  simp [DeleteBook, hcred, hexp, hex]

theorem createBook_snd_cases (clock : Nat → Int)
    (extract : Except String TokenMetadata) (body : Except String Book)
    (validate : Book → Option ValidationErrors) (conn : Option String)
    (newID : Nat) (fault : Option String) (s : Store) :
    (CreateBook clock extract body validate conn newID fault s).snd = s
    ∨ (CreateBook clock extract body validate conn newID fault s).fst.status
        = StatusCreated := by
  cases extract with
  | error e => exact Or.inl rfl
  | ok claims =>
    cases body with
    | error e => exact Or.inl rfl
    | ok b =>
      cases hg : (lookupCred claims.Credentials "book:create"
          && decide (clock 0 < claims.Expires)) with
      | false => left; simp [CreateBook, hg]
      | true =>
        cases hv : validate b with
        | some errs => left; simp [CreateBook, hg, hv]
        | none =>
          cases conn with
          | some e => left; simp [CreateBook, hg, hv]
          | none =>
            cases fault with
            | some e => left; simp [CreateBook, hg, hv]
            | none => right; simp [CreateBook, hg, hv]

theorem updateBook_snd_cases (clock : Nat → Int)
    (extract : Except String TokenMetadata) (body : Except String Book)
    (validate : Book → Option ValidationErrors) (conn : Option String)
    (fault : Option String) (s : Store) :
    (UpdateBook clock extract body validate conn fault s).snd = s
    ∨ (UpdateBook clock extract body validate conn fault s).fst.status
        = StatusAccepted := by
  cases extract with
  | error e => exact Or.inl rfl
  | ok claims =>
    cases body with
    | error e => exact Or.inl rfl
    | ok b =>
      cases hg : (lookupCred claims.Credentials "book:update"
          && decide (clock 0 < claims.Expires)) with
      | false => left; simp [UpdateBook, hg]
      | true =>
        cases hv : validate b with
        | some errs => left; simp [UpdateBook, hg, hv]
        | none =>
          cases conn with
          | some e => left; simp [UpdateBook, hg, hv]
          | none =>
            cases hb : getBookById s b.ID with
            | none => left; simp [UpdateBook, hg, hv, hb]
            | some old =>
              cases fault with
              | some e => left; simp [UpdateBook, hg, hv, hb]
              | none => right; simp [UpdateBook, hg, hv, hb]

theorem deleteBook_snd_cases (clock : Nat → Int)
    (extract : Except String TokenMetadata) (body : Except String Book)
    (conn : Option String) (fault : Option String) (s : Store) :
    (DeleteBook clock extract body conn fault s).snd = s
    ∨ (DeleteBook clock extract body conn fault s).fst.status = StatusOK := by
  cases extract with
  | error e => exact Or.inl rfl
  | ok claims =>
    cases body with
    | error e => exact Or.inl rfl
    | ok b =>
      cases hg : (lookupCred claims.Credentials "book:delete"
          && decide (clock 0 < claims.Expires)) with
      | false => left; simp [DeleteBook, hg]
      | true =>
        cases conn with
        | some e => left; simp [DeleteBook, hg]
        | none =>
          cases hb : getBookById s b.ID with
          | none => left; simp [DeleteBook, hg, hb]
          | some old =>
            cases fault with
            | some e => left; simp [DeleteBook, hg, hb]
            | none => right; simp [DeleteBook, hg, hb]

/-! ### Concrete fixtures used by witnesses and counterexamples -/

def okValidate : Book → Option ValidationErrors := fun _ => none

def failValidate : Book → Option ValidationErrors :=
  fun _ => some [("title", "lte")]

def sampleBook : Book := Book.mk 0 0 0 "A" "B" 0 []

def createClaims : TokenMetadata := TokenMetadata.mk 100 [("book:create", true)]

def updateClaims : TokenMetadata := TokenMetadata.mk 100 [("book:update", true)]

def deleteClaims : TokenMetadata := TokenMetadata.mk 100 [("book:delete", true)]

def noPermClaims : TokenMetadata := TokenMetadata.mk 100 []

def expiredCreateClaims : TokenMetadata :=
  TokenMetadata.mk 3 [("book:create", true)]

def expiredDeleteClaims : TokenMetadata :=
  TokenMetadata.mk 3 [("book:delete", true)]

def shortCreateClaims : TokenMetadata :=
  TokenMetadata.mk 50 [("book:create", true)]

def clockA : Nat → Int := fun n => if n = 0 then 5 else 10

def clockB : Nat → Int := fun n => if n = 0 then 20 else 25

def clockC : Nat → Int := fun n => if n = 0 then 5 else 200

/-! ### Claim theorems -/

/-- C1: in the mutation handlers the authorization guard grants access
(the request proceeds past the 403 denial branch) iff the permission entry
for the handler's action is `true` and the entry instant is strictly before
the claims' expiry; a missing permission entry reads as `false` — the
denial outcome, never an error. -/
theorem c1_guard_grants_iff_permission_and_unexpired :
    (∀ (clock : Nat → Int) (claims : TokenMetadata) (b : Book)
        (validate : Book → Option ValidationErrors) (conn : Option String)
        (newID : Nat) (fault : Option String) (s : Store),
      ((CreateBook clock (Except.ok claims) (Except.ok b) validate conn newID
          fault s).fst.status ≠ StatusForbidden)
        ↔ (lookupCred claims.Credentials "book:create" = true
             ∧ clock 0 < claims.Expires))
    ∧ (∀ (clock : Nat → Int) (claims : TokenMetadata) (b : Book)
        (validate : Book → Option ValidationErrors) (conn : Option String)
        (fault : Option String) (s : Store),
      ((UpdateBook clock (Except.ok claims) (Except.ok b) validate conn fault
          s).fst.status ≠ StatusForbidden)
        ↔ (lookupCred claims.Credentials "book:update" = true
             ∧ clock 0 < claims.Expires))
    ∧ (∀ (clock : Nat → Int) (claims : TokenMetadata) (b : Book)
        (conn : Option String) (fault : Option String) (s : Store),
      ((DeleteBook clock (Except.ok claims) (Except.ok b) conn fault
          s).fst.status ≠ StatusForbidden)
        ↔ (lookupCred claims.Credentials "book:delete" = true
             ∧ clock 0 < claims.Expires))
    ∧ (∀ action : String, lookupCred [] action = false) := by
  refine ⟨?_, ?_, ?_, ?_⟩
  · intro clock claims b validate conn newID fault s
    rw [ne_eq, createBook_forbidden_iff, not_not]
  · intro clock claims b validate conn fault s
    rw [ne_eq, updateBook_forbidden_iff, not_not]
  · intro clock claims b conn fault s
    rw [ne_eq, deleteBook_forbidden_iff, not_not]
  · intro action
    rfl

/-- Witness for C1: with the `book:create` permission granted and entry
instant 5 before expiry 100, CreateBook proceeds past the denial branch. -/
theorem c1_witness :
    lookupCred createClaims.Credentials "book:create" = true
    ∧ clockA 0 < createClaims.Expires
    ∧ (CreateBook clockA (Except.ok createClaims) (Except.ok sampleBook)
        okValidate none 7 none (Store.mk [])).fst.status ≠ StatusForbidden :=
  ⟨by decide, by decide,
    (c1_guard_grants_iff_permission_and_unexpired.1 clockA createClaims
      sampleBook okValidate none 7 none (Store.mk [])).mpr
      ⟨by decide, by decide⟩⟩

/-- C10: the instant compared against the token expiry is the single sample
taken at handler entry (`clock 0`, taken before claims extraction, body
decoding and validation): in Create and Update a token already expired at
the later sample `clock 1` (taken after the guard) is still treated as
unexpired, and in Delete the entire outcome depends on the clock only
through the entry sample. -/
theorem c10_expiry_compared_against_entry_instant :
    (∀ (clock : Nat → Int) (claims : TokenMetadata) (b : Book)
        (validate : Book → Option ValidationErrors) (conn : Option String)
        (newID : Nat) (fault : Option String) (s : Store),
      lookupCred claims.Credentials "book:create" = true →
      clock 0 < claims.Expires → claims.Expires ≤ clock 1 →
      (CreateBook clock (Except.ok claims) (Except.ok b) validate conn newID
          fault s).fst.status ≠ StatusForbidden)
    ∧ (∀ (clock : Nat → Int) (claims : TokenMetadata) (b : Book)
        (validate : Book → Option ValidationErrors) (conn : Option String)
        (fault : Option String) (s : Store),
      lookupCred claims.Credentials "book:update" = true →
      clock 0 < claims.Expires → claims.Expires ≤ clock 1 →
      (UpdateBook clock (Except.ok claims) (Except.ok b) validate conn fault
          s).fst.status ≠ StatusForbidden)
    ∧ (∀ (clock clock' : Nat → Int) (extract : Except String TokenMetadata)
        (body : Except String Book) (conn : Option String)
        (fault : Option String) (s : Store),
      clock 0 = clock' 0 →
      DeleteBook clock extract body conn fault s
        = DeleteBook clock' extract body conn fault s)
    ∧ (∀ (clock clock' : Nat → Int) (claims : TokenMetadata) (b : Book)
        (validate : Book → Option ValidationErrors) (conn : Option String)
        (newID newID' : Nat) (fault fault' : Option String) (s s' : Store),
      clock 0 = clock' 0 →
      (((CreateBook clock (Except.ok claims) (Except.ok b) validate conn newID
          fault s).fst.status = StatusForbidden)
        ↔ ((CreateBook clock' (Except.ok claims) (Except.ok b) validate conn
            newID' fault' s').fst.status = StatusForbidden))) := by
  refine ⟨?_, ?_, ?_, ?_⟩
  · intro clock claims b validate conn newID fault s hcred hexp _
    rw [ne_eq, createBook_forbidden_iff, not_not]
    exact ⟨hcred, hexp⟩
  · intro clock claims b validate conn fault s hcred hexp _
    rw [ne_eq, updateBook_forbidden_iff, not_not]
    exact ⟨hcred, hexp⟩
  · intro clock clock' extract body conn fault s h
    simp only [DeleteBook, h]
  · intro clock clock' claims b validate conn newID newID' fault fault' s s' h
    rw [createBook_forbidden_iff, createBook_forbidden_iff, h]

/-- Witness for C10: a token expiring at 50, with entry sample 5 and later
sample 200 (so it is expired by the time the creation timestamp is taken),
is still granted by CreateBook. -/
theorem c10_witness :
    lookupCred shortCreateClaims.Credentials "book:create" = true
    ∧ clockC 0 < shortCreateClaims.Expires
    ∧ shortCreateClaims.Expires ≤ clockC 1
    ∧ (CreateBook clockC (Except.ok shortCreateClaims) (Except.ok sampleBook)
        okValidate none 7 none (Store.mk [])).fst.status ≠ StatusForbidden :=
  ⟨by decide, by decide, by decide,
    c10_expiry_compared_against_entry_instant.1 clockC shortCreateClaims
      sampleBook okValidate none 7 none (Store.mk [])
      (by decide) (by decide) (by decide)⟩

/-- C8: denial responses do not reveal the cause: whether the required
permission entry is absent/false or the token is expired, CreateBook and
DeleteBook produce the very same 403 envelope with the same fixed denial
message. -/
theorem c8_denial_reason_indistinguishable :
    (∀ (clock : Nat → Int) (claims : TokenMetadata) (b : Book)
        (validate : Book → Option ValidationErrors) (conn : Option String)
        (newID : Nat) (fault : Option String) (s : Store),
      lookupCred claims.Credentials "book:create" = false →
      (CreateBook clock (Except.ok claims) (Except.ok b) validate conn newID
          fault s).fst
        = { status := StatusForbidden, error := true,
            msg := Msg.text deniedMsg, book := BookField.null })
    ∧ (∀ (clock : Nat → Int) (claims : TokenMetadata) (b : Book)
        (validate : Book → Option ValidationErrors) (conn : Option String)
        (newID : Nat) (fault : Option String) (s : Store),
      claims.Expires ≤ clock 0 →
      (CreateBook clock (Except.ok claims) (Except.ok b) validate conn newID
          fault s).fst
        = { status := StatusForbidden, error := true,
            msg := Msg.text deniedMsg, book := BookField.null })
    ∧ (∀ (clock : Nat → Int) (claims : TokenMetadata) (b : Book)
        (conn : Option String) (fault : Option String) (s : Store),
      lookupCred claims.Credentials "book:delete" = false →
      (DeleteBook clock (Except.ok claims) (Except.ok b) conn fault s).fst
        = { status := StatusForbidden, error := true,
            msg := Msg.text deniedMsg })
    ∧ (∀ (clock : Nat → Int) (claims : TokenMetadata) (b : Book)
        (conn : Option String) (fault : Option String) (s : Store),
      claims.Expires ≤ clock 0 →
      (DeleteBook clock (Except.ok claims) (Except.ok b) conn fault s).fst
        = { status := StatusForbidden, error := true,
            msg := Msg.text deniedMsg }) := by
  refine ⟨?_, ?_, ?_, ?_⟩
  · intro clock claims b validate conn newID fault s h
    rw [createBook_denied_eq clock claims b validate conn newID fault s
      (by simp [h])]
  · intro clock claims b validate conn newID fault s h
    have hd : decide (clock 0 < claims.Expires) = false :=
      decide_eq_false (not_lt.mpr h)
    rw [createBook_denied_eq clock claims b validate conn newID fault s
      (by simp [hd])]
  · intro clock claims b conn fault s h
    rw [deleteBook_denied_eq clock claims b conn fault s (by simp [h])]
  · intro clock claims b conn fault s h
    have hd : decide (clock 0 < claims.Expires) = false :=
      decide_eq_false (not_lt.mpr h)
    rw [deleteBook_denied_eq clock claims b conn fault s (by simp [hd])]

/-- Witness for C8: a create request missing the permission entry and a
create request with a granted but expired token (expiry 3, entry instant 5)
receive identical responses, as do the corresponding delete requests. -/
theorem c8_witness :
    lookupCred noPermClaims.Credentials "book:create" = false
    ∧ expiredCreateClaims.Expires ≤ clockA 0
    ∧ (CreateBook clockA (Except.ok noPermClaims) (Except.ok sampleBook)
        okValidate none 7 none (Store.mk [])).fst
      = (CreateBook clockA (Except.ok expiredCreateClaims)
          (Except.ok sampleBook) okValidate none 7 none (Store.mk [])).fst
    ∧ (DeleteBook clockA (Except.ok noPermClaims) (Except.ok sampleBook)
        none none (Store.mk [])).fst
      = (DeleteBook clockA (Except.ok expiredDeleteClaims)
          (Except.ok sampleBook) none none (Store.mk [])).fst :=
  ⟨by decide, by decide,
    by
      rw [c8_denial_reason_indistinguishable.1 clockA noPermClaims sampleBook
        okValidate none 7 none (Store.mk []) (by decide)]
      rw [c8_denial_reason_indistinguishable.2.1 clockA expiredCreateClaims
        sampleBook okValidate none 7 none (Store.mk []) (by decide)],
    by
      rw [c8_denial_reason_indistinguishable.2.2.1 clockA noPermClaims
        sampleBook none none (Store.mk []) (by decide)]
      rw [c8_denial_reason_indistinguishable.2.2.2 clockA expiredDeleteClaims
        sampleBook none none (Store.mk []) (by decide)]⟩

/-- C3: on the success path CreateBook returns and persists a book whose id
is the freshly generated one (distinct from every id already in the store
when the generator output is fresh), whose status is active (1), whose
attrs container is empty, whose `UpdatedAt` is the zero value, and whose
`CreatedAt` is the creation-time sample; the caller-supplied values of all
system fields are discarded — only `Title` and `Author` survive from the
payload. -/
theorem c3_create_forces_system_fields (clock : Nat → Int)
    (claims : TokenMetadata) (b : Book)
    (validate : Book → Option ValidationErrors) (newID : Nat) (s : Store)
    (hcred : lookupCred claims.Credentials "book:create" = true)
    (hexp : clock 0 < claims.Expires)
    (hval : validate b = none)
    (hfresh : newID ∉ s.books.map Book.ID) :
    CreateBook clock (Except.ok claims) (Except.ok b) validate none newID
        none s
      = ({ status := StatusCreated, error := false, msg := Msg.null,
           book := BookField.val
             (Book.mk newID (clock 1) 0 b.Title b.Author 1 []) },
         Store.mk (s.books ++ [Book.mk newID (clock 1) 0 b.Title b.Author 1 []]))
    ∧ (Book.mk newID (clock 1) 0 b.Title b.Author 1 []).ID
        ∉ s.books.map Book.ID := by
  refine ⟨?_, hfresh⟩
  rw [createBook_ok_eq clock claims b validate newID s hcred hexp hval]
  rfl

/-- Witness for C3: creating from a payload that tries to smuggle system
fields (id 42, createdAt 77, updatedAt 88, status 0, nonempty attrs) with
fresh generator output 7 persists a book with id 7, createdAt 10,
updatedAt 0, status 1 and empty attrs. -/
theorem c3_witness :
    lookupCred createClaims.Credentials "book:create" = true
    ∧ clockA 0 < createClaims.Expires
    ∧ okValidate (Book.mk 42 77 88 "A" "B" 0 [("k", "v")]) = none
    ∧ (7 : Nat) ∉ (Store.mk []).books.map Book.ID
    ∧ CreateBook clockA (Except.ok createClaims)
        (Except.ok (Book.mk 42 77 88 "A" "B" 0 [("k", "v")])) okValidate none
        7 none (Store.mk [])
      = ({ status := StatusCreated, error := false, msg := Msg.null,
           book := BookField.val (Book.mk 7 10 0 "A" "B" 1 []) },
         Store.mk [Book.mk 7 10 0 "A" "B" 1 []]) :=
  ⟨by decide, by decide, rfl, by decide,
    (c3_create_forces_system_fields clockA createClaims
      (Book.mk 42 77 88 "A" "B" 0 [("k", "v")]) okValidate 7 (Store.mk [])
      (by decide) (by decide) rfl (by decide)).1⟩

/-- C9: a successful UpdateBook persists exactly the decoded payload with
only `UpdatedAt` overwritten to the later clock sample: the record found by
the existence check is discarded, none of its fields are merged back, so
whatever values (including zero defaults) the payload carries for
`CreatedAt`, `BookStatus` and `BookAttrs` are what gets stored. -/
theorem c9_update_persists_payload_verbatim (clock : Nat → Int)
    (claims : TokenMetadata) (b : Book)
    (validate : Book → Option ValidationErrors) (s : Store)
    (hcred : lookupCred claims.Credentials "book:update" = true)
    (hexp : clock 0 < claims.Expires)
    (hval : validate b = none)
    (hex : (getBookById s b.ID).isSome = true) :
    UpdateBook clock (Except.ok claims) (Except.ok b) validate none none s
      = ({ status := StatusAccepted, error := false, msg := Msg.null,
           book := BookField.val { b with UpdatedAt := clock 1 } },
         dbUpdateBook s { b with UpdatedAt := clock 1 })
    ∧ getBookById (dbUpdateBook s { b with UpdatedAt := clock 1 }) b.ID
        = some { b with UpdatedAt := clock 1 } := by
  refine ⟨updateBook_ok_eq clock claims b validate s hcred hexp hval hex, ?_⟩
  exact getBookById_dbUpdateBook s { b with UpdatedAt := clock 1 } hex

/-- Witness for C9: the store holds a record with id 1, createdAt 10,
status 1 and nonempty attrs; updating with a payload that omits those
fields (zero values) stores createdAt 0, status 0 and empty attrs, with
updatedAt 25 — nothing of the old record survives. -/
theorem c9_witness :
    lookupCred updateClaims.Credentials "book:update" = true
    ∧ clockB 0 < updateClaims.Expires
    ∧ okValidate (Book.mk 1 0 0 "N" "M" 0 []) = none
    ∧ (getBookById (Store.mk [Book.mk 1 10 0 "Old" "Auth" 1 [("k", "v")]])
        (Book.mk 1 0 0 "N" "M" 0 []).ID).isSome = true
    ∧ getBookById
        (dbUpdateBook (Store.mk [Book.mk 1 10 0 "Old" "Auth" 1 [("k", "v")]])
          (Book.mk 1 0 25 "N" "M" 0 [])) 1
      = some (Book.mk 1 0 25 "N" "M" 0 []) :=
  ⟨by decide, by decide, rfl, by decide,
    (c9_update_persists_payload_verbatim clockB updateClaims
      (Book.mk 1 0 0 "N" "M" 0 []) okValidate
      (Store.mk [Book.mk 1 10 0 "Old" "Auth" 1 [("k", "v")]])
      (by decide) (by decide) rfl (by decide)).2⟩

def oneBookStore : Store := Store.mk [Book.mk 1 10 0 "A" "B" 1 []]

def delPayload : Book := Book.mk 1 0 0 "" "" 0 []

/-- C4: with granted, unexpired claims, deleting a nonexistent id yields the
not-found envelope even under an injected gateway delete fault (the delete
call is never reached), and deleting the same existing id twice yields
success then not-found. -/
theorem c4_delete_notfound_then_twice (clock clock' : Nat → Int)
    (claims : TokenMetadata) (b : Book) (fault : Option String) (s : Store)
    (hcred : lookupCred claims.Credentials "book:delete" = true)
    (hexp : clock 0 < claims.Expires)
    (hexp' : clock' 0 < claims.Expires) :
    (getBookById s b.ID = none →
      DeleteBook clock (Except.ok claims) (Except.ok b) none fault s
        = ({ status := StatusNotFound, error := true,
             msg := Msg.text "book not found" }, s))
    ∧ ((getBookById s b.ID).isSome = true →
      DeleteBook clock (Except.ok claims) (Except.ok b) none none s
        = ({ status := StatusOK, error := false, msg := Msg.null },
           dbDeleteBook s b.ID)
      ∧ DeleteBook clock' (Except.ok claims) (Except.ok b) none fault
          (dbDeleteBook s b.ID)
        = ({ status := StatusNotFound, error := true,
             msg := Msg.text "book not found" }, dbDeleteBook s b.ID)) := by
  constructor
  · intro h
    exact deleteBook_notfound_eq clock claims b fault s hcred hexp h
  · intro h
    refine ⟨deleteBook_ok_eq clock claims b s hcred hexp h, ?_⟩
    exact deleteBook_notfound_eq clock' claims b fault (dbDeleteBook s b.ID)
      hcred hexp' (getBookById_dbDeleteBook s b.ID)

/-- Witness for C4: deleting id 1 from a one-book store succeeds, and
repeating the identical request yields the not-found envelope; a delete of
a nonexistent id yields not-found even with an injected gateway fault. -/
theorem c4_witness :
    lookupCred deleteClaims.Credentials "book:delete" = true
    ∧ clockA 0 < deleteClaims.Expires
    ∧ (getBookById oneBookStore delPayload.ID).isSome = true
    ∧ (DeleteBook clockA (Except.ok deleteClaims) (Except.ok delPayload) none
        none oneBookStore
      = ({ status := StatusOK, error := false, msg := Msg.null },
         dbDeleteBook oneBookStore 1)
      ∧ DeleteBook clockB (Except.ok deleteClaims) (Except.ok delPayload)
          none (some "boom") (dbDeleteBook oneBookStore 1)
        = ({ status := StatusNotFound, error := true,
             msg := Msg.text "book not found" }, dbDeleteBook oneBookStore 1)) :=
  ⟨by decide, by decide, by decide,
    (c4_delete_notfound_then_twice clockA clockB deleteClaims delPayload
      (some "boom") oneBookStore (by decide) (by decide) (by decide)).2
      (by decide)⟩

/-- C5: a request whose outcome is access-denied (403) or not-found (404)
leaves the store exactly as it was, and repeating the identical request
against the resulting (unchanged) store produces the identical outcome. -/
theorem c5_failed_requests_idempotent :
    (∀ (clock : Nat → Int) (extract : Except String TokenMetadata)
        (body : Except String Book)
        (validate : Book → Option ValidationErrors) (conn : Option String)
        (newID : Nat) (fault : Option String) (s : Store),
      ((CreateBook clock extract body validate conn newID fault s).fst.status
          = StatusForbidden
        ∨ (CreateBook clock extract body validate conn newID fault
            s).fst.status = StatusNotFound) →
      (CreateBook clock extract body validate conn newID fault s).snd = s
      ∧ CreateBook clock extract body validate conn newID fault
          ((CreateBook clock extract body validate conn newID fault s).snd)
        = CreateBook clock extract body validate conn newID fault s)
    ∧ (∀ (clock : Nat → Int) (extract : Except String TokenMetadata)
        (body : Except String Book)
        (validate : Book → Option ValidationErrors) (conn : Option String)
        (fault : Option String) (s : Store),
      ((UpdateBook clock extract body validate conn fault s).fst.status
          = StatusForbidden
        ∨ (UpdateBook clock extract body validate conn fault s).fst.status
          = StatusNotFound) →
      (UpdateBook clock extract body validate conn fault s).snd = s
      ∧ UpdateBook clock extract body validate conn fault
          ((UpdateBook clock extract body validate conn fault s).snd)
        = UpdateBook clock extract body validate conn fault s)
    ∧ (∀ (clock : Nat → Int) (extract : Except String TokenMetadata)
        (body : Except String Book) (conn : Option String)
        (fault : Option String) (s : Store),
      ((DeleteBook clock extract body conn fault s).fst.status
          = StatusForbidden
        ∨ (DeleteBook clock extract body conn fault s).fst.status
          = StatusNotFound) →
      (DeleteBook clock extract body conn fault s).snd = s
      ∧ DeleteBook clock extract body conn fault
          ((DeleteBook clock extract body conn fault s).snd)
        = DeleteBook clock extract body conn fault s) := by
  refine ⟨?_, ?_, ?_⟩
  · intro clock extract body validate conn newID fault s h
    rcases createBook_snd_cases clock extract body validate conn newID fault s
      with heq | hsuc
    · exact ⟨heq, by rw [heq]⟩
    · exfalso
      cases h with
      | inl h =>
        rw [hsuc] at h
        simp only [StatusCreated, StatusForbidden] at h
        omega
      | inr h =>
        rw [hsuc] at h
        simp only [StatusCreated, StatusNotFound] at h
        omega
  · intro clock extract body validate conn fault s h
    rcases updateBook_snd_cases clock extract body validate conn fault s
      with heq | hsuc
    · exact ⟨heq, by rw [heq]⟩
    · exfalso
      cases h with
      | inl h =>
        rw [hsuc] at h
        simp only [StatusAccepted, StatusForbidden] at h
        omega
      | inr h =>
        rw [hsuc] at h
        simp only [StatusAccepted, StatusNotFound] at h
        omega
  · intro clock extract body conn fault s h
    rcases deleteBook_snd_cases clock extract body conn fault s
      with heq | hsuc
    · exact ⟨heq, by rw [heq]⟩
    · exfalso
      cases h with
      | inl h =>
        rw [hsuc] at h
        simp only [StatusOK, StatusForbidden] at h
        omega
      | inr h =>
        rw [hsuc] at h
        simp only [StatusOK, StatusNotFound] at h
        omega

/-- Witness for C5: a delete denied for a missing permission entry leaves
the one-book store unchanged, and rerunning it reproduces the outcome. -/
theorem c5_witness :
    ((DeleteBook clockA (Except.ok noPermClaims) (Except.ok delPayload) none
        none oneBookStore).fst.status = StatusForbidden
      ∨ (DeleteBook clockA (Except.ok noPermClaims) (Except.ok delPayload)
          none none oneBookStore).fst.status = StatusNotFound)
    ∧ ((DeleteBook clockA (Except.ok noPermClaims) (Except.ok delPayload)
        none none oneBookStore).snd = oneBookStore
      ∧ DeleteBook clockA (Except.ok noPermClaims) (Except.ok delPayload)
          none none
          ((DeleteBook clockA (Except.ok noPermClaims) (Except.ok delPayload)
            none none oneBookStore).snd)
        = DeleteBook clockA (Except.ok noPermClaims) (Except.ok delPayload)
            none none oneBookStore) :=
  ⟨Or.inl (by decide),
    c5_failed_requests_idempotent.2.2 clockA (Except.ok noPermClaims)
      (Except.ok delPayload) none none oneBookStore (Or.inl (by decide))⟩

/-- C6: the collection read cannot tell an empty store from a failed
gateway query: against an empty store it returns the failure-shaped
envelope with `error = true`, count 0, null books and the fixed
"books were not found" message — exactly the envelope produced when the
query faults. -/
theorem c6_getbooks_empty_indistinguishable_from_fault :
    (∀ s : Store, s.books = [] →
      GetBooks none (dbGetBooks s false)
        = { status := StatusNotFound, error := true,
            msg := Msg.text "books were not found",
            count := some 0, books := BooksField.null })
    ∧ (∀ (s : Store),
      GetBooks none (dbGetBooks s true)
        = { status := StatusNotFound, error := true,
            msg := Msg.text "books were not found",
            count := some 0, books := BooksField.null }) := by
  constructor
  · intro s h
    simp [GetBooks, dbGetBooks, h]
  · intro s
    simp [GetBooks, dbGetBooks]

/-- Witness for C6: the read of an empty store produces the failure-shaped
envelope. -/
theorem c6_witness :
    (Store.mk []).books = []
    ∧ GetBooks none (dbGetBooks (Store.mk []) false)
      = { status := StatusNotFound, error := true,
          msg := Msg.text "books were not found",
          count := some 0, books := BooksField.null } :=
  ⟨rfl, c6_getbooks_empty_indistinguishable_from_fault.1 (Store.mk []) rfl⟩

/-- C7: every decode failure (malformed identifier in GetBook, malformed
body in CreateBook, UpdateBook, DeleteBook) and every validation failure is
terminal and is mapped to the 500 server-fault envelope with `error = true`
— never a 4xx client-error status; decode errors carry the underlying
error text verbatim, validation failures carry the structured violation
list, and the mutators leave the store untouched. -/
theorem c7_decode_and_validation_map_to_server_fault :
    (∀ (e : String) (conn : Option String) (s : Store),
      GetBook (Except.error e) conn s
        = { status := StatusInternalServerError, error := true,
            msg := Msg.text e })
    ∧ (∀ (clock : Nat → Int) (claims : TokenMetadata) (e : String)
        (validate : Book → Option ValidationErrors) (conn : Option String)
        (newID : Nat) (fault : Option String) (s : Store),
      CreateBook clock (Except.ok claims) (Except.error e) validate conn
          newID fault s
        = ({ status := StatusInternalServerError, error := true,
             msg := Msg.text e }, s))
    ∧ (∀ (clock : Nat → Int) (claims : TokenMetadata) (e : String)
        (validate : Book → Option ValidationErrors) (conn : Option String)
        (fault : Option String) (s : Store),
      UpdateBook clock (Except.ok claims) (Except.error e) validate conn fault
          s
        = ({ status := StatusInternalServerError, error := true,
             msg := Msg.text e }, s))
    ∧ (∀ (clock : Nat → Int) (claims : TokenMetadata) (e : String)
        (conn : Option String) (fault : Option String) (s : Store),
      DeleteBook clock (Except.ok claims) (Except.error e) conn fault s
        = ({ status := StatusInternalServerError, error := true,
             msg := Msg.text e }, s))
    ∧ (∀ (clock : Nat → Int) (claims : TokenMetadata) (b : Book)
        (validate : Book → Option ValidationErrors) (conn : Option String)
        (newID : Nat) (fault : Option String) (s : Store)
        (errs : ValidationErrors),
      lookupCred claims.Credentials "book:create" = true →
      clock 0 < claims.Expires → validate b = some errs →
      CreateBook clock (Except.ok claims) (Except.ok b) validate conn newID
          fault s
        = ({ status := StatusInternalServerError, error := true,
             msg := Msg.fieldErrors errs }, s))
    ∧ (∀ (clock : Nat → Int) (claims : TokenMetadata) (b : Book)
        (validate : Book → Option ValidationErrors) (conn : Option String)
        (fault : Option String) (s : Store) (errs : ValidationErrors),
      lookupCred claims.Credentials "book:update" = true →
      clock 0 < claims.Expires → validate b = some errs →
      UpdateBook clock (Except.ok claims) (Except.ok b) validate conn fault s
        = ({ status := StatusInternalServerError, error := true,
             msg := Msg.fieldErrors errs }, s)) := by
  refine ⟨?_, ?_, ?_, ?_, ?_, ?_⟩
  · intro e conn s
    rfl
  · intro clock claims e validate conn newID fault s
    rfl
  · intro clock claims e validate conn fault s
    rfl
  · intro clock claims e conn fault s
    rfl
  · intro clock claims b validate conn newID fault s errs hcred hexp hval
    simp [CreateBook, hcred, hexp, hval]
  · intro clock claims b validate conn fault s errs hcred hexp hval
    simp [UpdateBook, hcred, hexp, hval]

/-- Witness for C7: a create with a failing validator yields the 500
envelope carrying the structured violation list. -/
theorem c7_witness :
    lookupCred createClaims.Credentials "book:create" = true
    ∧ clockA 0 < createClaims.Expires
    ∧ failValidate sampleBook = some [("title", "lte")]
    ∧ CreateBook clockA (Except.ok createClaims) (Except.ok sampleBook)
        failValidate none 7 none (Store.mk [])
      = ({ status := StatusInternalServerError, error := true,
           msg := Msg.fieldErrors [("title", "lte")] }, Store.mk []) :=
  ⟨by decide, by decide, rfl,
    c7_decode_and_validation_map_to_server_fault.2.2.2.2.1 clockA createClaims
      sampleBook failValidate none 7 none (Store.mk []) [("title", "lte")]
      (by decide) (by decide) rfl⟩

def c2Store1 : Store :=
  (CreateBook clockA (Except.ok createClaims) (Except.ok sampleBook)
    okValidate none 1 none (Store.mk [])).snd

def c2UpdPayload : Book := Book.mk 1 999 0 "A2" "B2" 0 []

def c2Run2 : Response × Store :=
  UpdateBook clockB (Except.ok updateClaims) (Except.ok c2UpdPayload)
    okValidate none none c2Store1

/-- C2 as stated is false on the code: a book created with status 1 and
createdAt 10 is, after one successful Update (status 202) whose payload
carries createdAt 999 and status 0, stored with status 0 (mutated by
Update), createdAt 999 (altered after creation) and updatedAt 25, so
createdAt ≤ updatedAt fails as well. -/
theorem c2_counterexample :
    (getBookById c2Store1 1).map Book.BookStatus = some 1
    ∧ (getBookById c2Store1 1).map Book.CreatedAt = some 10
    ∧ c2Run2.fst.status = StatusAccepted
    ∧ (getBookById c2Run2.snd 1).map Book.BookStatus = some 0
    ∧ (getBookById c2Run2.snd 1).map Book.CreatedAt = some 999
    ∧ (getBookById c2Run2.snd 1).map Book.UpdatedAt = some 25
    ∧ ((getBookById c2Run2.snd 1).map Book.UpdatedAt).getD 0
        < ((getBookById c2Run2.snd 1).map Book.CreatedAt).getD 0 := by
  decide

/-- C2 amended: at creation the system fields are forced (fresh id,
createdAt from the clock, status active, empty attrs, zero updatedAt),
discarding anything the caller supplied for them, and Update never changes
the sequence of record identifiers; but Update replaces the target record
with the decoded payload (only updatedAt overwritten to now), so a stored
record's createdAt, status and attrs can be changed by a successful Update
and createdAt ≤ updatedAt need not hold afterwards. -/
theorem c2_amended_invariants :
    (∀ (clock : Nat → Int) (claims : TokenMetadata) (b : Book)
        (validate : Book → Option ValidationErrors) (newID : Nat) (s : Store),
      lookupCred claims.Credentials "book:create" = true →
      clock 0 < claims.Expires → validate b = none →
      CreateBook clock (Except.ok claims) (Except.ok b) validate none newID
          none s
        = ({ status := StatusCreated, error := false, msg := Msg.null,
             book := BookField.val
               (Book.mk newID (clock 1) 0 b.Title b.Author 1 []) },
           dbCreateBook s (Book.mk newID (clock 1) 0 b.Title b.Author 1 [])))
    ∧ (∀ (clock : Nat → Int) (extract : Except String TokenMetadata)
        (body : Except String Book)
        (validate : Book → Option ValidationErrors) (conn : Option String)
        (fault : Option String) (s : Store),
      (UpdateBook clock extract body validate conn fault s).snd.books.map
          Book.ID
        = s.books.map Book.ID)
    ∧ (∀ (clock : Nat → Int) (claims : TokenMetadata) (b : Book)
        (validate : Book → Option ValidationErrors) (s : Store),
      lookupCred claims.Credentials "book:update" = true →
      clock 0 < claims.Expires → validate b = none →
      (getBookById s b.ID).isSome = true →
      (UpdateBook clock (Except.ok claims) (Except.ok b) validate none none
          s).snd
        = dbUpdateBook s { b with UpdatedAt := clock 1 }) := by
  refine ⟨?_, ?_, ?_⟩
  · intro clock claims b validate newID s hcred hexp hval
    exact createBook_ok_eq clock claims b validate newID s hcred hexp hval
  · intro clock extract body validate conn fault s
    cases extract with
    | error e => rfl
    | ok claims =>
      cases body with
      | error e => rfl
      | ok b =>
        cases hg : (lookupCred claims.Credentials "book:update"
            && decide (clock 0 < claims.Expires)) with
        | false => simp [UpdateBook, hg]
        | true =>
          cases hv : validate b with
          | some errs => simp [UpdateBook, hg, hv]
          | none =>
            cases conn with
            | some e => simp [UpdateBook, hg, hv]
            | none =>
              cases hb : getBookById s b.ID with
              | none => simp [UpdateBook, hg, hv, hb]
              | some old =>
                cases fault with
                | some e => simp [UpdateBook, hg, hv, hb]
                | none =>
                  simp only [UpdateBook, hg, hv, hb]
                  exact dbUpdateBook_ids s _
  · intro clock claims b validate s hcred hexp hval hex
    rw [updateBook_ok_eq clock claims b validate s hcred hexp hval hex]

/-- Witness for the amended C2: updating the one-record store created in
the counterexample replaces the stored record by the payload with
updatedAt 25 while preserving the identifier sequence. -/
theorem c2_amended_witness :
    lookupCred updateClaims.Credentials "book:update" = true
    ∧ clockB 0 < updateClaims.Expires
    ∧ okValidate c2UpdPayload = none
    ∧ (getBookById c2Store1 c2UpdPayload.ID).isSome = true
    ∧ (UpdateBook clockB (Except.ok updateClaims) (Except.ok c2UpdPayload)
        okValidate none none c2Store1).snd
      = dbUpdateBook c2Store1 (Book.mk 1 999 25 "A2" "B2" 0 []) :=
  ⟨by decide, by decide, rfl, by decide,
    c2_amended_invariants.2.2 clockB updateClaims c2UpdPayload okValidate
      c2Store1 (by decide) (by decide) rfl (by decide)⟩
